import Mathlib

/-!
Shallow embedding of the `telem-gen` crate (coordinate utilities, random-walk
motion model, STANAG 4586 frame codec) and proofs of the spec claims.

Rust `f64`/`f32` values are modelled as real numbers; byte buffers are lists
of `Fin 256`; machine integers are naturals with explicit `% 2 ^ w` where the
source wraps.
-/

namespace TelemGen

/-- A byte, as handled by the STANAG codec (`u8`). -/
abbrev Byte := Fin 256

/-- `Error` from `lib.rs`: the two error kinds of the library. -/
inductive Error where
  | ParseError : String → Error
  | InvalidCoord : String → Error
deriving DecidableEq

/-- `TGResult<T>` from `lib.rs`. -/
abbrev TGResult (α : Type) := Except Error α

/-! ## STANAG 4586 codec (`protocol/stanag_4586.rs`) -/

/-- `WrapperHeader` from `stanag_4586.rs`. -/
structure WrapperHeader where
  idd : List Byte
  msg_instance : Nat
  msg_type : Nat
  msg_length : Nat
  stream_id : Nat
  packet_seq : Nat
deriving DecidableEq

/-- `WrapperFooter` from `stanag_4586.rs`. -/
structure WrapperFooter where
  checksum : Nat
deriving DecidableEq

/-- `Message` from `stanag_4586.rs` (payload borrowed from the input buffer). -/
structure Message where
  header : WrapperHeader
  payload : List Byte
  footer : WrapperFooter
deriving DecidableEq

/-- `IDD_2_5`: the 10-byte version tag `"2.5"` followed by seven NULs. -/
def IDD_2_5 : List Byte := [50, 46, 53, 0, 0, 0, 0, 0, 0, 0]

/-- `MSG_TYPE_VEHICLE_SPECIFIC1` from `stanag_4586.rs`. -/
def MSG_TYPE_VEHICLE_SPECIFIC1 : Nat := 2001

/-- Value of a big-endian byte string (used to state what `be_u32` decodes). -/
def beVal (l : List Byte) : Nat := l.foldl (fun a b => a * 256 + b.val) 0

/-- The nom `tag` combinator (complete version): exact match of the leading
bytes, error otherwise.  Returns remaining input and the matched bytes. -/
def tag (t : List Byte) (input : List Byte) : TGResult (List Byte × List Byte) :=
  if input.take t.length = t then .ok (input.drop t.length, t)
  else .error (.ParseError "tag")

/-- The nom `be_u32` combinator: four bytes, big-endian. -/
def be_u32 (input : List Byte) : TGResult (List Byte × Nat) :=
  match input with
  | b0 :: b1 :: b2 :: b3 :: rest => .ok (rest, ((b0.val * 256 + b1.val) * 256 + b2.val) * 256 + b3.val)
  | _ => .error (.ParseError "be_u32")

/-- The nom `take` combinator: exactly `n` bytes of input. -/
def take (n : Nat) (input : List Byte) : TGResult (List Byte × List Byte) :=
  if n ≤ input.length then .ok (input.drop n, input.take n)
  else .error (.ParseError "take")

/-- `nom_parse` from `stanag_4586.rs`: the `?`-chained nom combinators. -/
def nom_parse (bytes : List Byte) : TGResult (List Byte × Message) := do
  let (rest, idd) ← tag IDD_2_5 bytes
  let (rest, msg_instance) ← be_u32 rest
  let (rest, msg_type) ← be_u32 rest
  let (rest, msg_length) ← be_u32 rest
  let (rest, stream_id) ← be_u32 rest
  let (rest, packet_seq) ← be_u32 rest
  let (rest, payload) ← take msg_length rest
  let (rest, checksum) ← be_u32 rest
  pure (rest,
    { header :=
        { idd := idd, msg_instance := msg_instance, msg_type := msg_type,
          msg_length := msg_length, stream_id := stream_id,
          packet_seq := packet_seq },
      payload := payload,
      footer := { checksum := checksum } })

/-- `parse` from `stanag_4586.rs`: run `nom_parse`, keep the message, drop the
unconsumed rest. -/
def parse (bytes : List Byte) : TGResult Message :=
  match nom_parse bytes with
  | .error e => .error e
  | .ok (_, msg) => .ok msg

/-- `checksum` from `stanag_4586.rs`: byte-wise sum accumulated in a `u64`
(wrapping), then truncated to `u32` by the final cast. -/
def checksum (bytes : List Byte) : Nat :=
  (bytes.foldl (fun sum b => (sum + b.val) % 2 ^ 64) 0) % 2 ^ 32

/-- `u32::to_be_bytes`, used by the test to build frames. -/
def to_be_bytes (n : Nat) : List Byte :=
  [⟨n / 16777216 % 256, by omega⟩, ⟨n / 65536 % 256, by omega⟩,
   ⟨n / 256 % 256, by omega⟩, ⟨n % 256, by omega⟩]

/-- The payload-length field as decoded from a raw buffer (offset 18, 4 bytes,
big-endian); used to state when `parse` succeeds. -/
def declared_len (b : List Byte) : Nat := beVal ((b.drop 18).take 4)

/-! ### Parser stage characterizations -/

lemma be_u32_eq (l : List Byte) :
    be_u32 l = if 4 ≤ l.length then .ok (l.drop 4, beVal (l.take 4))
      else .error (.ParseError "be_u32") := by
  rcases l with _ | ⟨b0, _ | ⟨b1, _ | ⟨b2, _ | ⟨b3, rest⟩⟩⟩⟩ <;>
    simp [be_u32, beVal]

lemma tag_on_append (r : List Byte) :
    tag IDD_2_5 (IDD_2_5 ++ r) = .ok (r, IDD_2_5) := by
  simp [tag, IDD_2_5]

lemma be_u32_be_bytes (n : Nat) (hn : n < 2 ^ 32) (r : List Byte) :
    be_u32 (to_be_bytes n ++ r) = .ok (r, n) := by
  simp only [to_be_bytes, List.cons_append, List.nil_append, be_u32]
  congr 1
  congr 1
  omega

lemma take_exact (p r : List Byte) : take p.length (p ++ r) = .ok (r, p) := by
  simp [take]

lemma IDD_len : IDD_2_5.length = 10 := rfl

lemma tg_bind_ok {α β : Type} (a : α) (f : α → TGResult β) :
    (Except.ok a : TGResult α) >>= f = f a := rfl

lemma tg_bind_err {α β : Type} (e : Error) (f : α → TGResult β) :
    (Except.error e : TGResult α) >>= f = .error e := rfl

lemma tg_pure {α : Type} (a : α) : (pure a : TGResult α) = .ok a := rfl

lemma tag_ok_of (b : List Byte) (htag : b.take 10 = IDD_2_5) :
    tag IDD_2_5 b = .ok (b.drop 10, IDD_2_5) := by
  simp only [tag, IDD_len, htag, if_true]

lemma be_u32_drop (b : List Byte) (k : Nat) (h : k + 4 ≤ b.length) :
    be_u32 (b.drop k) = .ok (b.drop (k + 4), beVal ((b.drop k).take 4)) := by
  rw [be_u32_eq, if_pos (by simp only [List.length_drop]; omega), List.drop_drop]

lemma take_drop (b : List Byte) (k n : Nat) (h : k + n ≤ b.length) :
    take n (b.drop k) = .ok (b.drop (k + n), (b.drop k).take n) := by
  simp only [take, List.length_drop]
  rw [if_pos (by omega), List.drop_drop]

/-- Successful run of `nom_parse`, fully characterized. -/
lemma nom_parse_ok_of (b : List Byte) (htag : b.take 10 = IDD_2_5)
    (hlen : 34 + declared_len b ≤ b.length) :
    nom_parse b = .ok (b.drop (34 + declared_len b),
      { header := { idd := IDD_2_5,
                    msg_instance := beVal ((b.drop 10).take 4),
                    msg_type := beVal ((b.drop 14).take 4),
                    msg_length := declared_len b,
                    stream_id := beVal ((b.drop 22).take 4),
                    packet_seq := beVal ((b.drop 26).take 4) },
        payload := (b.drop 30).take (declared_len b),
        footer := { checksum := beVal ((b.drop (30 + declared_len b)).take 4) } }) := by
  have hLd : declared_len b = beVal ((b.drop 18).take 4) := rfl
  have e1 := tag_ok_of b htag
  have e2 := be_u32_drop b 10 (by omega)
  have e3 := be_u32_drop b 14 (by omega)
  have e4 := be_u32_drop b 18 (by omega)
  have e5 := be_u32_drop b 22 (by omega)
  have e6 := be_u32_drop b 26 (by omega)
  have e7 := take_drop b 30 (declared_len b) (by omega)
  have e8 := be_u32_drop b (30 + declared_len b) (by omega)
  simp only [nom_parse, e1, tg_bind_ok, e2, e3, e4, e5, e6, ← hLd, e7, e8, tg_pure]
  norm_num
  rw [show 30 + declared_len b + 4 = 34 + declared_len b from by omega]

/-- Failing run of `nom_parse`: always a `ParseError`. -/
lemma nom_parse_err_of (b : List Byte)
    (h : ¬(b.take 10 = IDD_2_5 ∧ 34 + declared_len b ≤ b.length)) :
    ∃ s, nom_parse b = .error (.ParseError s) := by
  by_cases htag : b.take 10 = IDD_2_5
  case neg =>
    refine ⟨"tag", ?_⟩
    simp only [nom_parse, tag, IDD_len]
    rw [if_neg htag]
    rfl
  have hlen : b.length < 34 + declared_len b := by
    rcases Nat.lt_or_ge b.length (34 + declared_len b) with h' | h'
    · exact h'
    · exact absurd ⟨htag, h'⟩ h
  have hLd : declared_len b = beVal ((b.drop 18).take 4) := rfl
  have e1 := tag_ok_of b htag
  by_cases h1 : 14 ≤ b.length
  case neg =>
    have f1 : be_u32 (b.drop 10) = .error (.ParseError "be_u32") := by
      rw [be_u32_eq, if_neg (by simp only [List.length_drop]; omega)]
    refine ⟨"be_u32", ?_⟩
    simp only [nom_parse, e1, tg_bind_ok, f1, tg_bind_err]
  have e2 := be_u32_drop b 10 (by omega)
  by_cases h2 : 18 ≤ b.length
  case neg =>
    have f2 : be_u32 (b.drop 14) = .error (.ParseError "be_u32") := by
      rw [be_u32_eq, if_neg (by simp only [List.length_drop]; omega)]
    refine ⟨"be_u32", ?_⟩
    simp only [nom_parse, e1, tg_bind_ok, e2, f2, tg_bind_err]
  have e3 := be_u32_drop b 14 (by omega)
  by_cases h3 : 22 ≤ b.length
  case neg =>
    have f3 : be_u32 (b.drop 18) = .error (.ParseError "be_u32") := by
      rw [be_u32_eq, if_neg (by simp only [List.length_drop]; omega)]
    refine ⟨"be_u32", ?_⟩
    simp only [nom_parse, e1, tg_bind_ok, e2, e3, f3, tg_bind_err]
  have e4 := be_u32_drop b 18 (by omega)
  by_cases h4 : 26 ≤ b.length
  case neg =>
    have f4 : be_u32 (b.drop 22) = .error (.ParseError "be_u32") := by
      rw [be_u32_eq, if_neg (by simp only [List.length_drop]; omega)]
    refine ⟨"be_u32", ?_⟩
    simp only [nom_parse, e1, tg_bind_ok, e2, e3, e4, f4, tg_bind_err]
  have e5 := be_u32_drop b 22 (by omega)
  by_cases h5 : 30 ≤ b.length
  case neg =>
    have f5 : be_u32 (b.drop 26) = .error (.ParseError "be_u32") := by
      rw [be_u32_eq, if_neg (by simp only [List.length_drop]; omega)]
    refine ⟨"be_u32", ?_⟩
    simp only [nom_parse, e1, tg_bind_ok, e2, e3, e4, e5, f5, tg_bind_err]
  have e6 := be_u32_drop b 26 (by omega)
  by_cases h6 : 30 + declared_len b ≤ b.length
  case neg =>
    have f6 : take (declared_len b) (b.drop 30) = .error (.ParseError "take") := by
      simp only [take, List.length_drop]
      rw [if_neg (by omega)]
    refine ⟨"take", ?_⟩
    simp only [nom_parse, e1, tg_bind_ok, e2, e3, e4, e5, e6, ← hLd, f6, tg_bind_err]
  have e7 := take_drop b 30 (declared_len b) (by omega)
  have f7 : be_u32 (b.drop (30 + declared_len b)) = .error (.ParseError "be_u32") := by
    rw [be_u32_eq, if_neg (by simp only [List.length_drop]; omega)]
  refine ⟨"be_u32", ?_⟩
  simp only [nom_parse, e1, tg_bind_ok, e2, e3, e4, e5, e6, ← hLd, e7, f7, tg_bind_err]

/-! ### Checksum: C3 -/

lemma checksum_foldl (l : List Byte) (a : Nat) :
    l.foldl (fun sum b => (sum + b.val) % 2 ^ 64) (a % 2 ^ 64)
      = (a + (l.map Fin.val).sum) % 2 ^ 64 := by
  induction l generalizing a with
  | nil => simp
  | cons x xs ih =>
    simp only [List.foldl_cons, List.map_cons, List.sum_cons]
    rw [Nat.mod_add_mod, ih (a + x.val), Nat.add_assoc]

/-- C3: `checksum(b)` is the plain byte sum reduced modulo `2^32` (the `u64`
accumulator wraps at `2^64`, which is absorbed by the final `u32` truncation),
and the three concrete values from the spec hold. -/
theorem checksum_is_sum_mod (b : List Byte) :
    checksum b = (b.map Fin.val).sum % 2 ^ 32 ∧
    checksum ([] : List Byte) = 0 ∧
    checksum [1, 1, 1, 1, 0, 0] = 4 ∧
    checksum [255, 255, 255, 255, 1, 1] = 1022 := by
  refine ⟨?_, by decide, by decide, by decide⟩
  have h0 : (0 : Nat) = 0 % 2 ^ 64 := by norm_num
  rw [checksum, h0, checksum_foldl b 0, Nat.zero_add,
    Nat.mod_mod_of_dvd _ ⟨2 ^ 32, by norm_num⟩]

/-! ### STANAG claims: C4, C5, C10 -/

/-- C4: STANAG `parse` succeeds iff the buffer starts with the exact 10-byte
version tag and has enough bytes for the five 4-byte big-endian header fields,
exactly `L` payload bytes (`L` the decoded length field) and the 4-byte
checksum field (10 + 20 + L + 4 bytes in total); otherwise it fails with a
`ParseError`.  The success condition never involves recomputing the checksum. -/
theorem stanag_parse_success_iff (b : List Byte) :
    ((∃ m, parse b = .ok m) ↔
      b.take 10 = IDD_2_5 ∧ 34 + declared_len b ≤ b.length) ∧
    ((∃ s, parse b = .error (.ParseError s)) ↔
      ¬(b.take 10 = IDD_2_5 ∧ 34 + declared_len b ≤ b.length)) := by
  by_cases h : b.take 10 = IDD_2_5 ∧ 34 + declared_len b ≤ b.length
  · have hok := nom_parse_ok_of b h.1 h.2
    constructor
    · simp only [parse, hok]
      exact ⟨fun _ => h, fun _ => ⟨_, rfl⟩⟩
    · constructor
      · rintro ⟨s, hs⟩
        rw [parse, hok] at hs
        cases hs
      · intro hc
        exact absurd h hc
  · obtain ⟨s, hs⟩ := nom_parse_err_of b h
    constructor
    · constructor
      · rintro ⟨m, hm⟩
        rw [parse, hs] at hm
        cases hm
      · intro hc
        exact absurd hc h
    · exact ⟨fun _ => h, fun _ => ⟨s, by rw [parse, hs]⟩⟩

/-- C4 witness: on the empty buffer the parse fails with a `ParseError`. -/
theorem stanag_parse_success_iff_witness :
    ∃ s, parse [] = .error (.ParseError s) :=
  (stanag_parse_success_iff []).2.mpr (by decide)

/-- The test payload `b"Hello"`. -/
def hello_payload : List Byte := [72, 101, 108, 108, 111]

/-- The leading frame bytes built by `test_stanag_wrapper_hello_serde`
(everything before the trailing checksum field). -/
def test_msg_head : List Byte :=
  IDD_2_5 ++ to_be_bytes 0 ++ to_be_bytes MSG_TYPE_VEHICLE_SPECIFIC1 ++ to_be_bytes 5 ++
    to_be_bytes 1 ++ to_be_bytes 4294967295 ++ hello_payload

/-- The full test frame: the head bytes plus their big-endian checksum. -/
def test_msg_bytes : List Byte := test_msg_head ++ to_be_bytes (checksum test_msg_head)

/-- C5: parsing the hand-built "Hello" frame succeeds and reproduces every
header field, the payload bytes, and the checksum (1891, the byte sum of the
preceding 35 bytes) exactly. -/
theorem stanag_hello_roundtrip :
    checksum test_msg_head = 1891 ∧
    parse test_msg_bytes = .ok
      { header := { idd := IDD_2_5, msg_instance := 0, msg_type := 2001, msg_length := 5,
                    stream_id := 1, packet_seq := 4294967295 },
        payload := hello_payload,
        footer := { checksum := 1891 } } := by
  exact ⟨by decide, by rfl⟩

lemma be_u32_be_bytes_nil (n : Nat) (hn : n < 2 ^ 32) :
    be_u32 (to_be_bytes n) = .ok ([], n) := by
  have := be_u32_be_bytes n hn []
  rwa [List.append_nil] at this

/-- C10: the parser imposes no constraint on the packet-sequence field: a
well-formed frame parses for any 4-byte value there, and the header field
`packet_seq` is its big-endian decoding verbatim. -/
theorem stanag_parse_ignores_packet_seq
    (inst typ stream pseq csum : Nat) (payload : List Byte)
    (hinst : inst < 2 ^ 32) (htyp : typ < 2 ^ 32) (hstream : stream < 2 ^ 32)
    (hpseq : pseq < 2 ^ 32) (hcsum : csum < 2 ^ 32) (hplen : payload.length < 2 ^ 32) :
    parse (IDD_2_5 ++ to_be_bytes inst ++ to_be_bytes typ ++ to_be_bytes payload.length ++
        to_be_bytes stream ++ to_be_bytes pseq ++ payload ++ to_be_bytes csum) =
      .ok { header := { idd := IDD_2_5, msg_instance := inst, msg_type := typ,
                        msg_length := payload.length, stream_id := stream,
                        packet_seq := pseq },
            payload := payload,
            footer := { checksum := csum } } := by
  simp only [List.append_assoc]
  simp only [parse, nom_parse, tag_on_append, tg_bind_ok, be_u32_be_bytes inst hinst,
    be_u32_be_bytes typ htyp, be_u32_be_bytes payload.length hplen,
    be_u32_be_bytes stream hstream, be_u32_be_bytes pseq hpseq, take_exact,
    be_u32_be_bytes_nil csum hcsum, tg_pure]

/-- C10 witness: a frame whose packet sequence is 0 (not the sentinel) parses,
with `packet_seq = 0`. -/
theorem stanag_parse_ignores_packet_seq_witness :
    parse (IDD_2_5 ++ to_be_bytes 7 ++ to_be_bytes 2001 ++
        to_be_bytes (([65] : List Byte).length) ++ to_be_bytes 3 ++ to_be_bytes 0 ++
        [65] ++ to_be_bytes 5) =
      .ok { header := { idd := IDD_2_5, msg_instance := 7, msg_type := 2001,
                        msg_length := ([65] : List Byte).length, stream_id := 3,
                        packet_seq := 0 },
            payload := [65],
            footer := { checksum := 5 } } :=
  stanag_parse_ignores_packet_seq 7 2001 3 0 5 [65] (by norm_num) (by norm_num)
    (by norm_num) (by norm_num) (by norm_num) (by norm_num)

/-! ## Coordinates (`coord.rs`), reals standing in for `f64`/`f32` -/

noncomputable section

/-- `Point2d` from `coord.rs` (a pair of `f64`s). -/
abbrev Point2d := ℝ × ℝ

/-- `BBoxWGS` from `coord.rs`. -/
structure BBoxWGS where
  upper_left : Point2d
  lower_right : Point2d

/-- `f64::to_radians` / `f32::to_radians`. -/
def to_radians (deg : ℝ) : ℝ := deg * (Real.pi / 180)

/-- `BBoxWGS::validate_lat`: `(-90.0..=90.0).contains(&lat)` or error. -/
def BBoxWGS.validate_lat (lat : ℝ) : TGResult Unit :=
  if ¬(-90 ≤ lat ∧ lat ≤ 90) then .error (.InvalidCoord "latitude") else .ok ()

/-- `BBoxWGS::validate_lon`: `(-180.0..=180.0).contains(&lon)` or error. -/
def BBoxWGS.validate_lon (lon : ℝ) : TGResult Unit :=
  if ¬(-180 ≤ lon ∧ lon ≤ 180) then .error (.InvalidCoord "longitude") else .ok ()

/-- `BBoxWGS::validate_lat_lon`. -/
def BBoxWGS.validate_lat_lon (coord : Point2d) : TGResult Unit := do
  BBoxWGS.validate_lat coord.1
  BBoxWGS.validate_lon coord.2

/-- `BBoxWGS::new`: validate both corners, then build the box. -/
def BBoxWGS.new (upper_left lower_right : Point2d) : TGResult BBoxWGS := do
  BBoxWGS.validate_lat_lon upper_left
  BBoxWGS.validate_lat_lon lower_right
  pure { upper_left := upper_left, lower_right := lower_right }

/-- `BBoxWGS::midpoint`. -/
def BBoxWGS.midpoint (b : BBoxWGS) : Point2d :=
  ((b.upper_left.1 + b.lower_right.1) / 2, (b.upper_left.2 + b.lower_right.2) / 2)

/-- The value carried by a successful `meter_per_deg_lat`. -/
def meter_per_deg_lat_val (lat_deg : ℝ) : ℝ :=
  111132.92 - 559.82 * Real.cos (2 * to_radians lat_deg)
    + 1.175 * Real.cos (4 * to_radians lat_deg)
    - 0.0023 * Real.cos (6 * to_radians lat_deg)

/-- The value carried by a successful `meter_per_deg_lon`. -/
def meter_per_deg_lon_val (lat_deg : ℝ) : ℝ :=
  111412.84 * Real.cos (to_radians lat_deg)
    - 93.5 * Real.cos (3 * to_radians lat_deg)
    + 0.118 * Real.cos (5 * to_radians lat_deg)

/-- `BBoxWGS::meter_per_deg_lat`: validate, then the cosine polynomial. -/
def BBoxWGS.meter_per_deg_lat (lat_deg : ℝ) : TGResult ℝ := do
  BBoxWGS.validate_lat lat_deg
  pure (meter_per_deg_lat_val lat_deg)

/-- `BBoxWGS::meter_per_deg_lon`: validate, then the cosine polynomial. -/
def BBoxWGS.meter_per_deg_lon (lat_deg : ℝ) : TGResult ℝ := do
  BBoxWGS.validate_lat lat_deg
  pure (meter_per_deg_lon_val lat_deg)

/-- `BBoxWGS::approx_dimensions_m`. -/
def BBoxWGS.approx_dimensions_m (b : BBoxWGS) : TGResult Point2d := do
  let mid_lat := b.midpoint.1
  let lat_deg := b.lower_right.1 - b.upper_left.1
  let lon_deg := b.lower_right.2 - b.upper_left.2
  let width := (← BBoxWGS.meter_per_deg_lon mid_lat) * lon_deg
  let height := (← BBoxWGS.meter_per_deg_lat mid_lat) * lat_deg
  pure (|width|, |height|)

/-- `Heading::rot` from `coord.rs`: the stored value after `rot(deg_cw)`
starting from stored value `h`. -/
def Heading.rot (h deg_cw : ℝ) : ℝ :=
  let h' := h + deg_cw
  if h' < 0 then h' + 360 else if 360 ≤ h' then h' - 360 else h'

/-! ## Motion model (`model.rs`) -/

/-- `TimeDelta` from `model.rs` (`msec: u32`). -/
structure TimeDelta where
  msec : Nat

/-- `TimeDelta::seconds`. -/
def TimeDelta.seconds (d : TimeDelta) : ℝ := (d.msec : ℝ) / 1000

/-- `RandomWalk` state from `model.rs`. -/
structure RandomWalk where
  bbox : BBoxWGS
  max_velocity_mps : ℝ
  last_pos : Point2d
  heading : ℝ

/-- `RandomWalk::new`; `r0` stands for the `rand::random::<f32>()` draw. -/
def RandomWalk.new (bbox : BBoxWGS) (max_velocity_mps : ℝ) (r0 : ℝ) : RandomWalk :=
  { bbox := bbox, max_velocity_mps := max_velocity_mps,
    last_pos := bbox.midpoint, heading := r0 * 360 }

/-- `Result::unwrap` on a `TGResult<f64>`; the panic case is modelled by a
junk value and proved unreachable (claim C8). -/
def TGResult.unwrap (r : TGResult ℝ) : ℝ :=
  match r with
  | .ok v => v
  | .error _ => 0

/-- One `RandomWalk::next` step (`rv`, `rt` stand for the two
`rand::random::<f32>()` draws); returns the updated state together with the
coordinates handed to `M::from_coords`. -/
def RandomWalk.next (rw : RandomWalk) (delta_t : TimeDelta) (rv rt : ℝ) :
    RandomWalk × Point2d :=
  let vel := rv * rw.max_velocity_mps
  let turn := (rt - 0.5) * 10
  let heading := Heading.rot rw.heading turn
  let dist_m := delta_t.seconds * vel
  let delta_x := dist_m * Real.cos (to_radians heading)
  let delta_y := dist_m * Real.sin (to_radians heading)
  let delta_lat := delta_y / (BBoxWGS.meter_per_deg_lat rw.last_pos.1).unwrap
  let delta_lon := delta_x / (BBoxWGS.meter_per_deg_lon rw.last_pos.1).unwrap
  let new_lat := rw.last_pos.1 + delta_lat
  let new_lon := rw.last_pos.2 + delta_lon
  let oob := false
  let p1 :=
    if rw.bbox.upper_left.1 < new_lat then (true, rw.bbox.upper_left.1)
    else if new_lat < rw.bbox.lower_right.1 then (true, rw.bbox.lower_right.1)
    else (oob, new_lat)
  let p2 :=
    if new_lon < rw.bbox.upper_left.2 then (true, rw.bbox.upper_left.2)
    else if rw.bbox.lower_right.2 < new_lon then (true, rw.bbox.lower_right.2)
    else (p1.1, new_lon)
  let heading := if p2.1 then Heading.rot heading 180 else heading
  ({ rw with last_pos := (p1.2, p2.2), heading := heading }, (p1.2, p2.2))

/-- Iterate `next` over a list of per-step inputs (Δt and the two draws). -/
def RandomWalk.run (rw : RandomWalk) : List (TimeDelta × ℝ × ℝ) → RandomWalk
  | [] => rw
  | (d, rv, rt) :: rest => ((rw.next d rv rt).1).run rest

end

/-! ### Spec-side decomposition of a step (for C1/C7/C8) -/

noncomputable section

/-- Spec-side clamp of the latitude axis to the violated edge. -/
def clamp_lat (b : BBoxWGS) (x : ℝ) : ℝ :=
  if b.upper_left.1 < x then b.upper_left.1
  else if x < b.lower_right.1 then b.lower_right.1 else x

/-- Spec-side clamp of the longitude axis to the violated edge. -/
def clamp_lon (b : BBoxWGS) (x : ℝ) : ℝ :=
  if x < b.upper_left.2 then b.upper_left.2
  else if b.lower_right.2 < x then b.lower_right.2 else x

/-- The candidate latitude violates the box. -/
@[reducible] def lat_oob (b : BBoxWGS) (x : ℝ) : Prop :=
  b.upper_left.1 < x ∨ x < b.lower_right.1

/-- The candidate longitude violates the box. -/
@[reducible] def lon_oob (b : BBoxWGS) (x : ℝ) : Prop :=
  x < b.upper_left.2 ∨ b.lower_right.2 < x

/-- Post-turn heading of a step (spec step 2). -/
def RandomWalk.turned_heading (rw : RandomWalk) (rt : ℝ) : ℝ :=
  Heading.rot rw.heading ((rt - 0.5) * 10)

/-- Candidate (pre-clamp) position of a step (spec steps 1-5). -/
def RandomWalk.candidate (rw : RandomWalk) (delta_t : TimeDelta) (rv rt : ℝ) : Point2d :=
  let vel := rv * rw.max_velocity_mps
  let heading := rw.turned_heading rt
  let dist_m := delta_t.seconds * vel
  let delta_x := dist_m * Real.cos (to_radians heading)
  let delta_y := dist_m * Real.sin (to_radians heading)
  let delta_lat := delta_y / (BBoxWGS.meter_per_deg_lat rw.last_pos.1).unwrap
  let delta_lon := delta_x / (BBoxWGS.meter_per_deg_lon rw.last_pos.1).unwrap
  (rw.last_pos.1 + delta_lat, rw.last_pos.2 + delta_lon)

/-- The containment predicate of the claim: latitude between the lower-right and
upper-left latitudes inclusive, longitude between the upper-left and
lower-right longitudes inclusive. -/
def insideBBox (b : BBoxWGS) (p : Point2d) : Prop :=
  min b.lower_right.1 b.upper_left.1 ≤ p.1 ∧ p.1 ≤ max b.lower_right.1 b.upper_left.1 ∧
  min b.upper_left.2 b.lower_right.2 ≤ p.2 ∧ p.2 ≤ max b.upper_left.2 b.lower_right.2

end

/-- A `next` step is exactly: clamp each axis of the candidate independently,
and flip the post-turn heading by 180° once iff either axis was out. -/
lemma next_full_eq (rw : RandomWalk) (delta_t : TimeDelta) (rv rt : ℝ) :
    rw.next delta_t rv rt =
      ({ rw with
          last_pos := (clamp_lat rw.bbox (rw.candidate delta_t rv rt).1,
                       clamp_lon rw.bbox (rw.candidate delta_t rv rt).2),
          heading := if lat_oob rw.bbox (rw.candidate delta_t rv rt).1 ∨
                        lon_oob rw.bbox (rw.candidate delta_t rv rt).2
                     then Heading.rot (rw.turned_heading rt) 180
                     else rw.turned_heading rt },
        (clamp_lat rw.bbox (rw.candidate delta_t rv rt).1,
         clamp_lon rw.bbox (rw.candidate delta_t rv rt).2)) := by
  simp only [RandomWalk.next, RandomWalk.candidate, RandomWalk.turned_heading,
    clamp_lat, clamp_lon, lat_oob, lon_oob]
  split_ifs <;> simp_all <;>
    (exfalso; rcases ‹(_ ∨ _) ∨ _ ∨ _› with (h | h) | h | h <;> linarith)

/-! ### Coordinate validation: C2 -/

/-- The range condition of the spec on a coordinate pair. -/
def valid_coord (p : Point2d) : Prop :=
  (-90 ≤ p.1 ∧ p.1 ≤ 90) ∧ (-180 ≤ p.2 ∧ p.2 ≤ 180)

lemma validate_ok_of (p : Point2d) (h : valid_coord p) :
    BBoxWGS.validate_lat_lon p = .ok () := by
  obtain ⟨h1, h2⟩ := h
  simp only [BBoxWGS.validate_lat_lon, BBoxWGS.validate_lat, BBoxWGS.validate_lon]
  rw [if_neg (not_not_intro h1), tg_bind_ok, if_neg (not_not_intro h2)]

lemma validate_err_of (p : Point2d) (h : ¬valid_coord p) :
    ∃ s, BBoxWGS.validate_lat_lon p = .error (.InvalidCoord s) := by
  by_cases h1 : -90 ≤ p.1 ∧ p.1 ≤ 90
  · have h2 : ¬(-180 ≤ p.2 ∧ p.2 ≤ 180) := fun h2 => h ⟨h1, h2⟩
    refine ⟨"longitude", ?_⟩
    simp only [BBoxWGS.validate_lat_lon, BBoxWGS.validate_lat, BBoxWGS.validate_lon]
    rw [if_neg (not_not_intro h1), tg_bind_ok, if_pos h2]
  · refine ⟨"latitude", ?_⟩
    simp only [BBoxWGS.validate_lat_lon, BBoxWGS.validate_lat]
    rw [if_pos h1, tg_bind_err]

lemma new_ok_of (ul lr : Point2d) (hu : valid_coord ul) (hl : valid_coord lr) :
    BBoxWGS.new ul lr = .ok { upper_left := ul, lower_right := lr } := by
  simp only [BBoxWGS.new, validate_ok_of ul hu, tg_bind_ok, validate_ok_of lr hl, tg_pure]

lemma new_err_of (ul lr : Point2d) (h : ¬(valid_coord ul ∧ valid_coord lr)) :
    ∃ s, BBoxWGS.new ul lr = .error (.InvalidCoord s) := by
  by_cases hu : valid_coord ul
  · have hl : ¬valid_coord lr := fun hl => h ⟨hu, hl⟩
    obtain ⟨s, hs⟩ := validate_err_of lr hl
    exact ⟨s, by simp only [BBoxWGS.new, validate_ok_of ul hu, tg_bind_ok, hs, tg_bind_err]⟩
  · obtain ⟨s, hs⟩ := validate_err_of ul hu
    exact ⟨s, by simp only [BBoxWGS.new, hs, tg_bind_err]⟩

/-- C2: validating a coordinate pair succeeds exactly for latitudes in
`[-90, 90]` and longitudes in `[-180, 180]`; outside it fails with
`InvalidCoord`, and `BBoxWGS::new` succeeds iff both corners pass, failing
with `InvalidCoord` otherwise. -/
theorem coordinate_validation_iff (ul lr : Point2d) :
    (BBoxWGS.validate_lat_lon ul = .ok () ↔ valid_coord ul) ∧
    ((∃ s, BBoxWGS.validate_lat_lon ul = .error (.InvalidCoord s)) ↔ ¬valid_coord ul) ∧
    ((∃ b, BBoxWGS.new ul lr = .ok b) ↔ (valid_coord ul ∧ valid_coord lr)) ∧
    ((∃ s, BBoxWGS.new ul lr = .error (.InvalidCoord s)) ↔
      ¬(valid_coord ul ∧ valid_coord lr)) := by
  refine ⟨⟨fun hok => ?_, validate_ok_of ul⟩, ⟨fun hes => ?_, validate_err_of ul⟩,
    ⟨fun hb => ?_, fun ⟨hu, hl⟩ => ⟨_, new_ok_of ul lr hu hl⟩⟩,
    ⟨fun hes => ?_, new_err_of ul lr⟩⟩
  · by_contra hv
    obtain ⟨s, hs⟩ := validate_err_of ul hv
    rw [hok] at hs
    cases hs
  · intro hv
    obtain ⟨s, hs⟩ := hes
    rw [validate_ok_of ul hv] at hs
    cases hs
  · by_contra hv
    obtain ⟨s, hs⟩ := new_err_of ul lr hv
    obtain ⟨b, hb⟩ := hb
    rw [hb] at hs
    cases hs
  · intro ⟨hu, hl⟩
    obtain ⟨s, hs⟩ := hes
    rw [new_ok_of ul lr hu hl] at hs
    cases hs

/-- C2 witness: the all-zero pair validates and builds a box; latitude 91
fails with `InvalidCoord`. -/
theorem coordinate_validation_iff_witness :
    BBoxWGS.validate_lat_lon ((0 : ℝ), (0 : ℝ)) = .ok () ∧
    (∃ s, BBoxWGS.new ((91 : ℝ), (0 : ℝ)) ((0 : ℝ), (0 : ℝ)) =
      .error (.InvalidCoord s)) :=
  ⟨((coordinate_validation_iff ((0 : ℝ), (0 : ℝ)) ((0 : ℝ), (0 : ℝ))).1).mpr
      (by constructor <;> constructor <;> norm_num),
   ((coordinate_validation_iff ((91 : ℝ), (0 : ℝ)) ((0 : ℝ), (0 : ℝ))).2.2.2).mpr
      (by intro h; have := h.1.1.2; norm_num at this)⟩

/-! ### Heading normalization: C6 (corrected) -/

/-- C6 counterexample: `rot` is a single-wrap correction, so from stored
heading 0, `rot(720)` yields 360, which is not in `[0, 360)`. -/
theorem heading_rot_counterexample :
    Heading.rot 0 720 = 360 ∧ ¬(0 ≤ Heading.rot 0 720 ∧ Heading.rot 0 720 < 360) := by
  have h : Heading.rot 0 720 = 360 := by
    simp only [Heading.rot]
    norm_num
  exact ⟨h, fun hc => by rw [h] at hc; exact absurd hc.2 (by norm_num)⟩

/-- C6 amended: if the stored heading is already normalized (in `[0, 360)`)
and the rotation amount is within one turn (`[-360, 360]`), the resulting
heading lies in `[0, 360)`. -/
theorem heading_rot_mem_Ico (h d : ℝ) (h0 : 0 ≤ h) (h1 : h < 360)
    (hd0 : -360 ≤ d) (hd1 : d ≤ 360) :
    0 ≤ Heading.rot h d ∧ Heading.rot h d < 360 := by
  simp only [Heading.rot]
  split_ifs with c1 c2 <;> constructor <;> linarith

/-- C6 witness: from heading 350, `rot(20)` wraps to 10, inside `[0, 360)`. -/
theorem heading_rot_mem_Ico_witness :
    0 ≤ Heading.rot 350 20 ∧ Heading.rot 350 20 < 360 :=
  heading_rot_mem_Ico 350 20 (by norm_num) (by norm_num) (by norm_num) (by norm_num)

/-! ### Motion model invariants: C1, C7, C8 -/

lemma clamp_lat_mem (b : BBoxWGS) (x : ℝ) :
    min b.lower_right.1 b.upper_left.1 ≤ clamp_lat b x ∧
    clamp_lat b x ≤ max b.lower_right.1 b.upper_left.1 := by
  unfold clamp_lat
  split_ifs with h1 h2
  · exact ⟨min_le_right _ _, le_max_right _ _⟩
  · exact ⟨min_le_left _ _, le_max_left _ _⟩
  · exact ⟨le_trans (min_le_left _ _) (not_lt.1 h2), le_trans (not_lt.1 h1) (le_max_right _ _)⟩

lemma clamp_lon_mem (b : BBoxWGS) (x : ℝ) :
    min b.upper_left.2 b.lower_right.2 ≤ clamp_lon b x ∧
    clamp_lon b x ≤ max b.upper_left.2 b.lower_right.2 := by
  unfold clamp_lon
  split_ifs with h1 h2
  · exact ⟨min_le_left _ _, le_max_left _ _⟩
  · exact ⟨min_le_right _ _, le_max_right _ _⟩
  · exact ⟨le_trans (min_le_left _ _) (not_lt.1 h1), le_trans (not_lt.1 h2) (le_max_right _ _)⟩

lemma step_inside (rw : RandomWalk) (d : TimeDelta) (rv rt : ℝ) :
    insideBBox rw.bbox ((rw.next d rv rt).1.last_pos) := by
  unfold insideBBox
  rw [next_full_eq]
  exact ⟨(clamp_lat_mem rw.bbox ((rw.candidate d rv rt).1)).1,
    (clamp_lat_mem rw.bbox ((rw.candidate d rv rt).1)).2,
    (clamp_lon_mem rw.bbox ((rw.candidate d rv rt).2)).1,
    (clamp_lon_mem rw.bbox ((rw.candidate d rv rt).2)).2⟩

lemma next_bbox_eq (rw : RandomWalk) (d : TimeDelta) (rv rt : ℝ) :
    ((rw.next d rv rt).1).bbox = rw.bbox := by
  rw [next_full_eq]

lemma run_inside (steps : List (TimeDelta × ℝ × ℝ)) : ∀ rw : RandomWalk,
    insideBBox rw.bbox rw.last_pos → insideBBox rw.bbox ((rw.run steps).last_pos) := by
  induction steps with
  | nil => exact fun rw h => h
  | cons s rest ih =>
    intro rw h
    obtain ⟨d, rv, rt⟩ := s
    have h1 := step_inside rw d rv rt
    have h2 := ih ((rw.next d rv rt).1)
    rw [next_bbox_eq] at h2
    simp only [RandomWalk.run]
    exact h2 h1

lemma midpoint_inside (b : BBoxWGS) : insideBBox b b.midpoint := by
  unfold insideBBox BBoxWGS.midpoint
  exact ⟨by linarith [min_le_left b.lower_right.1 b.upper_left.1,
           min_le_right b.lower_right.1 b.upper_left.1],
    by linarith [le_max_left b.lower_right.1 b.upper_left.1,
      le_max_right b.lower_right.1 b.upper_left.1],
    by linarith [min_le_left b.upper_left.2 b.lower_right.2,
      min_le_right b.upper_left.2 b.lower_right.2],
    by linarith [le_max_left b.upper_left.2 b.lower_right.2,
      le_max_right b.upper_left.2 b.lower_right.2]⟩

/-- C1: for a box constructed from validated corners and any max speed, the
initial position (the box midpoint) and the stored position after every finite
sequence of `next` calls — over all random draws — lie between the corner
latitudes and longitudes inclusive. -/
theorem random_walk_stays_in_bbox (ul lr : Point2d) (b : BBoxWGS) (v r0 : ℝ)
    (hb : BBoxWGS.new ul lr = .ok b) (steps : List (TimeDelta × ℝ × ℝ)) :
    insideBBox b (RandomWalk.new b v r0).last_pos ∧
    insideBBox b ((RandomWalk.new b v r0).run steps).last_pos := by
  constructor
  · simp only [RandomWalk.new]
    exact midpoint_inside b
  · have h := run_inside steps (RandomWalk.new b v r0)
      (by simp only [RandomWalk.new]; exact midpoint_inside b)
    simpa only [RandomWalk.new] using h

/-- The test box from `model.rs`, reused as witness input. -/
def witness_box : BBoxWGS :=
  { upper_left := ((39 : ℝ), (-110 : ℝ)), lower_right := ((38 : ℝ), (-109.5 : ℝ)) }

/-- C1 witness: the `model.rs` test box, one 60 s step with mid-range draws. -/
theorem random_walk_stays_in_bbox_witness :
    insideBBox witness_box (RandomWalk.new witness_box 100 (0.25 : ℝ)).last_pos ∧
    insideBBox witness_box ((RandomWalk.new witness_box 100 (0.25 : ℝ)).run
      [({ msec := 60000 }, 0.5, 0.5)]).last_pos :=
  random_walk_stays_in_bbox ((39 : ℝ), (-110 : ℝ)) ((38 : ℝ), (-109.5 : ℝ))
    witness_box 100 0.25
    (new_ok_of _ _ (by constructor <;> constructor <;> norm_num)
      (by constructor <;> constructor <;> norm_num))
    [({ msec := 60000 }, 0.5, 0.5)]

/-- C7: in each step the two axes of the candidate are clamped independently
of each other (each axis to its own violated edge), and the heading is rotated
by 180° exactly once iff at least one axis was clamped — also for a corner
clamp — and not at all otherwise. -/
theorem next_clamps_independently_and_bounces_once (rw : RandomWalk)
    (delta_t : TimeDelta) (rv rt : ℝ) :
    (rw.next delta_t rv rt).1.last_pos =
      (clamp_lat rw.bbox (rw.candidate delta_t rv rt).1,
       clamp_lon rw.bbox (rw.candidate delta_t rv rt).2) ∧
    (rw.next delta_t rv rt).1.heading =
      (if lat_oob rw.bbox (rw.candidate delta_t rv rt).1 ∨
          lon_oob rw.bbox (rw.candidate delta_t rv rt).2
        then Heading.rot (rw.turned_heading rt) 180
        else rw.turned_heading rt) := by
  rw [next_full_eq]
  exact ⟨rfl, rfl⟩

lemma new_ok_inv (ul lr : Point2d) (b : BBoxWGS) (hb : BBoxWGS.new ul lr = .ok b) :
    b.upper_left = ul ∧ b.lower_right = lr ∧ valid_coord ul ∧ valid_coord lr := by
  by_cases hu : valid_coord ul
  · by_cases hl : valid_coord lr
    · rw [new_ok_of ul lr hu hl] at hb
      injection hb with hb
      exact ⟨by rw [← hb], by rw [← hb], hu, hl⟩
    · obtain ⟨s, hs⟩ := new_err_of ul lr (fun h => hl h.2)
      rw [hs] at hb
      cases hb
  · obtain ⟨s, hs⟩ := new_err_of ul lr (fun h => hu h.1)
    rw [hs] at hb
    cases hb

lemma inside_lat_bounds (b : BBoxWGS) (p : Point2d)
    (hu : -90 ≤ b.upper_left.1 ∧ b.upper_left.1 ≤ 90)
    (hl : -90 ≤ b.lower_right.1 ∧ b.lower_right.1 ≤ 90)
    (hp : insideBBox b p) : -90 ≤ p.1 ∧ p.1 ≤ 90 := by
  unfold insideBBox at hp
  exact ⟨le_trans (le_min hl.1 hu.1) hp.1, le_trans hp.2.1 (max_le hl.2 hu.2)⟩

lemma mpd_lat_ok (lat : ℝ) (h : -90 ≤ lat ∧ lat ≤ 90) :
    BBoxWGS.meter_per_deg_lat lat = .ok (meter_per_deg_lat_val lat) := by
  simp only [BBoxWGS.meter_per_deg_lat, BBoxWGS.validate_lat]
  rw [if_neg (not_not_intro h), tg_bind_ok, tg_pure]

lemma mpd_lon_ok (lat : ℝ) (h : -90 ≤ lat ∧ lat ≤ 90) :
    BBoxWGS.meter_per_deg_lon lat = .ok (meter_per_deg_lon_val lat) := by
  simp only [BBoxWGS.meter_per_deg_lon, BBoxWGS.validate_lat]
  rw [if_neg (not_not_intro h), tg_bind_ok, tg_pure]

/-- C8: from a box that passed corner validation, after any sequence of `next`
calls the current model latitude is still a valid latitude, so the internal
`meter_per_deg_lat`/`meter_per_deg_lon` calls return `Ok` (never
`InvalidCoord`) and the `unwrap`s cannot panic. -/
theorem next_meter_conversions_never_fail (ul lr : Point2d) (b : BBoxWGS) (v r0 : ℝ)
    (hb : BBoxWGS.new ul lr = .ok b) (steps : List (TimeDelta × ℝ × ℝ)) :
    BBoxWGS.meter_per_deg_lat (((RandomWalk.new b v r0).run steps).last_pos.1) =
      .ok (meter_per_deg_lat_val (((RandomWalk.new b v r0).run steps).last_pos.1)) ∧
    BBoxWGS.meter_per_deg_lon (((RandomWalk.new b v r0).run steps).last_pos.1) =
      .ok (meter_per_deg_lon_val (((RandomWalk.new b v r0).run steps).last_pos.1)) := by
  obtain ⟨hul, hlr, hvu, hvl⟩ := new_ok_inv ul lr b hb
  have hin : insideBBox b ((RandomWalk.new b v r0).run steps).last_pos := by
    have h := run_inside steps (RandomWalk.new b v r0)
      (by simp only [RandomWalk.new]; exact midpoint_inside b)
    simpa only [RandomWalk.new] using h
  have hlat := inside_lat_bounds b _ (by rw [hul]; exact hvu.1) (by rw [hlr]; exact hvl.1) hin
  exact ⟨mpd_lat_ok _ hlat, mpd_lon_ok _ hlat⟩

/-- C8 witness: the `model.rs` test box, one step. -/
theorem next_meter_conversions_never_fail_witness :
    BBoxWGS.meter_per_deg_lat (((RandomWalk.new witness_box 50 (0.75 : ℝ)).run
        [({ msec := 1000 }, 0.25, 0.75)]).last_pos.1) =
      .ok (meter_per_deg_lat_val (((RandomWalk.new witness_box 50 (0.75 : ℝ)).run
        [({ msec := 1000 }, 0.25, 0.75)]).last_pos.1)) ∧
    BBoxWGS.meter_per_deg_lon (((RandomWalk.new witness_box 50 (0.75 : ℝ)).run
        [({ msec := 1000 }, 0.25, 0.75)]).last_pos.1) =
      .ok (meter_per_deg_lon_val (((RandomWalk.new witness_box 50 (0.75 : ℝ)).run
        [({ msec := 1000 }, 0.25, 0.75)]).last_pos.1)) :=
  next_meter_conversions_never_fail ((39 : ℝ), (-110 : ℝ)) ((38 : ℝ), (-109.5 : ℝ))
    witness_box 50 0.75
    (new_ok_of _ _ (by constructor <;> constructor <;> norm_num)
      (by constructor <;> constructor <;> norm_num))
    [({ msec := 1000 }, 0.25, 0.75)]

/-! ### Interval bounds for `Real.cos` (for C9) -/

/-- The `n`-th term of the cosine power series at `x`. -/
noncomputable def cosTerm (x : ℝ) (n : ℕ) : ℝ :=
  (-1) ^ n * x ^ (2 * n) / (Nat.factorial (2 * n) : ℝ)

lemma cos_lip (a b : ℝ) : |Real.cos a - Real.cos b| ≤ |a - b| := by
  rw [Real.cos_sub_cos]
  have h1 := Real.abs_sin_le_one ((a + b) / 2)
  have h2 : |Real.sin ((a - b) / 2)| ≤ |a - b| / 2 := by
    have := Real.abs_sin_le_abs (x := (a - b) / 2)
    calc |Real.sin ((a - b) / 2)| ≤ |(a - b) / 2| := this
    _ = |a - b| / 2 := by rw [abs_div]; norm_num
  calc |(-2) * Real.sin ((a + b) / 2) * Real.sin ((a - b) / 2)|
      = 2 * (|Real.sin ((a + b) / 2)| * |Real.sin ((a - b) / 2)|) := by
        rw [abs_mul, abs_mul]
        norm_num
        ring
  _ ≤ 2 * (1 * (|a - b| / 2)) := by
        apply mul_le_mul_of_nonneg_left _ (by norm_num)
        exact mul_le_mul h1 h2 (abs_nonneg _) (by norm_num)
  _ = |a - b| := by ring

lemma factorial_bound (n : ℕ) : 3628800 * 132 ^ n ≤ Nat.factorial (2 * n + 10) := by
  induction n with
  | zero => norm_num [Nat.factorial]
  | succ k ih =>
    have h : 2 * (k + 1) + 10 = (2 * k + 10) + 2 := by ring
    rw [h]
    have hfac : Nat.factorial ((2 * k + 10) + 2) =
        ((2 * k + 10) + 2) * (((2 * k + 10) + 1) * Nat.factorial (2 * k + 10)) := rfl
    rw [hfac]
    calc 3628800 * 132 ^ (k + 1) = 132 * (3628800 * 132 ^ k) := by ring
    _ ≤ 132 * Nat.factorial (2 * k + 10) := Nat.mul_le_mul_left 132 ih
    _ ≤ (((2 * k + 10) + 2) * ((2 * k + 10) + 1)) * Nat.factorial (2 * k + 10) :=
        Nat.mul_le_mul_right _ (by nlinarith)
    _ = ((2 * k + 10) + 2) * (((2 * k + 10) + 1) * Nat.factorial (2 * k + 10)) := by ring

lemma cosTerm_head (x : ℝ) :
    ∑ i in Finset.range 5, cosTerm x i =
      1 - x ^ 2 / 2 + x ^ 4 / 24 - x ^ 6 / 720 + x ^ 8 / 40320 := by
  simp [cosTerm, Finset.sum_range_succ, Nat.factorial]
  ring

lemma cosTerm_tail_bound (x : ℝ) (h0 : 0 ≤ x) (h1 : x ≤ 1) (n : ℕ) :
    ‖cosTerm x (n + 5)‖ ≤ x ^ 10 / 3628800 * (1 / 132 : ℝ) ^ n := by
  have hfpos : (0 : ℝ) < (Nat.factorial (2 * (n + 5)) : ℝ) := by
    exact_mod_cast Nat.factorial_pos _
  have habs : ‖cosTerm x (n + 5)‖ =
      x ^ (2 * (n + 5)) / (Nat.factorial (2 * (n + 5)) : ℝ) := by
    rw [Real.norm_eq_abs, cosTerm, abs_div, abs_mul, abs_pow, abs_neg, abs_one, one_pow,
      one_mul, abs_of_nonneg (pow_nonneg h0 _), abs_of_nonneg hfpos.le]
  rw [habs]
  have hx : x ^ (2 * (n + 5)) ≤ x ^ 10 := by
    have hsplit : x ^ (2 * (n + 5)) = x ^ 10 * x ^ (2 * n) := by ring
    rw [hsplit]
    calc x ^ 10 * x ^ (2 * n) ≤ x ^ 10 * 1 :=
          mul_le_mul_of_nonneg_left (pow_le_one₀ h0 h1) (pow_nonneg h0 10)
    _ = x ^ 10 := mul_one _
  have hfact : (3628800 : ℝ) * 132 ^ n ≤ (Nat.factorial (2 * (n + 5)) : ℝ) := by
    have := factorial_bound n
    rw [show 2 * (n + 5) = 2 * n + 10 from by ring]
    exact_mod_cast this
  have hgpos : (0 : ℝ) < 3628800 * 132 ^ n := by positivity
  calc x ^ (2 * (n + 5)) / (Nat.factorial (2 * (n + 5)) : ℝ)
      ≤ x ^ 10 / (3628800 * 132 ^ n) :=
        div_le_div (pow_nonneg h0 10) hx hgpos hfact
  _ = x ^ 10 / 3628800 * (1 / 132 : ℝ) ^ n := by
        rw [one_div, inv_pow]
        ring

/-- Five-term Taylor bound for `Real.cos` on `[0, 1]`. -/
lemma cos_taylor_bound (x : ℝ) (h0 : 0 ≤ x) (h1 : x ≤ 1) :
    |Real.cos x - (1 - x ^ 2 / 2 + x ^ 4 / 24 - x ^ 6 / 720 + x ^ 8 / 40320)| ≤
      x ^ 10 / 3628800 * (132 / 131) := by
  have hs : HasSum (cosTerm x) (Real.cos x) := Real.hasSum_cos x
  have hsum : Summable (cosTerm x) := hs.summable
  have hsplit := sum_add_tsum_nat_add (f := cosTerm x) 5 hsum
  have htail : Real.cos x - (1 - x ^ 2 / 2 + x ^ 4 / 24 - x ^ 6 / 720 + x ^ 8 / 40320) =
      tsum (fun n => cosTerm x (n + 5)) := by
    rw [← cosTerm_head, ← hs.tsum_eq, ← hsplit]
    ring
  rw [htail]
  have hgs : Summable (fun n : ℕ => x ^ 10 / 3628800 * (1 / 132 : ℝ) ^ n) :=
    (summable_geometric_of_lt_one (by norm_num) (by norm_num)).mul_left _
  have hns : Summable (fun n => ‖cosTerm x (n + 5)‖) :=
    Summable.of_nonneg_of_le (fun n => norm_nonneg _) (cosTerm_tail_bound x h0 h1) hgs
  have hb1 : ‖tsum (fun n => cosTerm x (n + 5))‖ ≤ tsum (fun n => ‖cosTerm x (n + 5)‖) :=
    norm_tsum_le_tsum_norm hns
  have hb2 : tsum (fun n => ‖cosTerm x (n + 5)‖) ≤
      tsum (fun n : ℕ => x ^ 10 / 3628800 * (1 / 132 : ℝ) ^ n) :=
    tsum_le_tsum (cosTerm_tail_bound x h0 h1) hns hgs
  have hb3 : tsum (fun n : ℕ => x ^ 10 / 3628800 * (1 / 132 : ℝ) ^ n) =
      x ^ 10 / 3628800 * (132 / 131) := by
    rw [tsum_mul_left, tsum_geometric_of_lt_one (by norm_num) (by norm_num)]
    norm_num
  calc |tsum (fun n => cosTerm x (n + 5))| = ‖tsum (fun n => cosTerm x (n + 5))‖ :=
        (Real.norm_eq_abs _).symm
  _ ≤ tsum (fun n => ‖cosTerm x (n + 5)‖) := hb1
  _ ≤ tsum (fun n : ℕ => x ^ 10 / 3628800 * (1 / 132 : ℝ) ^ n) := hb2
  _ = x ^ 10 / 3628800 * (132 / 131) := hb3

/-- Bracket `Real.cos x` when `x` is within `e` of a rational point `q ∈ [0,1]`. -/
lemma cos_near (x q c1 c2 e : ℝ) (hq0 : 0 ≤ q) (hq1 : q ≤ 1) (hx : |x - q| ≤ e)
    (hlo : c1 ≤ 1 - q ^ 2 / 2 + q ^ 4 / 24 - q ^ 6 / 720 + q ^ 8 / 40320 -
      q ^ 10 / 3628800 * (132 / 131) - e)
    (hhi : 1 - q ^ 2 / 2 + q ^ 4 / 24 - q ^ 6 / 720 + q ^ 8 / 40320 +
      q ^ 10 / 3628800 * (132 / 131) + e ≤ c2) :
    c1 ≤ Real.cos x ∧ Real.cos x ≤ c2 := by
  have ht := cos_taylor_bound q hq0 hq1
  have hl := cos_lip x q
  rw [abs_le] at ht hl
  constructor <;> linarith

lemma cos_five_mul (x : ℝ) :
    Real.cos (5 * x) = 2 * Real.cos (3 * x) * Real.cos (2 * x) - Real.cos x := by
  have ha := Real.cos_add (3 * x) (2 * x)
  have hb := Real.cos_sub (3 * x) (2 * x)
  rw [show 3 * x + 2 * x = 5 * x from by ring] at ha
  rw [show 3 * x - 2 * x = x from by ring] at hb
  linarith

lemma cos_four_mul (x : ℝ) : Real.cos (4 * x) = 2 * Real.cos (2 * x) ^ 2 - 1 := by
  have := Real.cos_two_mul (2 * x)
  rwa [show 2 * (2 * x) = 4 * x from by ring] at this

lemma cos_six_mul (x : ℝ) : Real.cos (6 * x) = 2 * Real.cos (3 * x) ^ 2 - 1 := by
  have := Real.cos_two_mul (3 * x)
  rwa [show 2 * (3 * x) = 6 * x from by ring] at this

lemma cos_phi_AB :
    (0.7576023 : ℝ) ≤ Real.cos (to_radians 40.7467136) ∧
    Real.cos (to_radians 40.7467136) ≤ 0.7576026 := by
  apply cos_near _ (40.7467136 * (3.1415925 / 180)) _ _ 0.000000114
  · norm_num
  · norm_num
  · unfold to_radians
    rw [abs_le]
    constructor <;> linarith [Real.pi_gt_3141592, Real.pi_lt_3141593]
  · norm_num
  · norm_num

lemma cos_phi_AC :
    (0.7599426 : ℝ) ≤ Real.cos (to_radians 40.540851) ∧
    Real.cos (to_radians 40.540851) ≤ 0.7599429 := by
  apply cos_near _ (40.540851 * (3.1415925 / 180)) _ _ 0.000000113
  · norm_num
  · norm_num
  · unfold to_radians
    rw [abs_le]
    constructor <;> linarith [Real.pi_gt_3141592, Real.pi_lt_3141593]
  · norm_num
  · norm_num

lemma sq_le_sq_of_nonneg' {x a b : ℝ} (h1 : a ≤ x) (h2 : x ≤ b) (ha : 0 ≤ a) :
    a ^ 2 ≤ x ^ 2 ∧ x ^ 2 ≤ b ^ 2 := by
  constructor <;> nlinarith

lemma sq_le_sq_of_nonpos' {x a b : ℝ} (h1 : a ≤ x) (h2 : x ≤ b) (hb : b ≤ 0) :
    b ^ 2 ≤ x ^ 2 ∧ x ^ 2 ≤ a ^ 2 := by
  constructor <;> nlinarith

set_option maxHeartbeats 1000000 in
lemma mpd_lon_val_AB :
    (84456.39501 : ℝ) ≤ meter_per_deg_lon_val 40.7467136 ∧
    meter_per_deg_lon_val 40.7467136 ≤ 84456.42872 := by
  obtain ⟨hc1, hc2⟩ := cos_phi_AB
  unfold meter_per_deg_lon_val
  rw [cos_five_mul, Real.cos_three_mul, Real.cos_two_mul]
  set c : ℝ := Real.cos (to_radians 40.7467136) with hcdef
  have hc0 : (0 : ℝ) ≤ c := by linarith
  have hs1 : (0.57396124 : ℝ) ≤ c ^ 2 := by nlinarith
  have hs2 : c ^ 2 ≤ 0.57396170 := by nlinarith
  have ht1 : (0.43483435 : ℝ) ≤ c ^ 3 := by
    nlinarith [mul_le_mul hs1 hc1 (by norm_num) (by positivity)]
  have ht2 : c ^ 3 ≤ 0.43483488 := by
    nlinarith [mul_le_mul hs2 hc2 hc0 (by norm_num)]
  have hm1 : (-0.53347040 : ℝ) ≤ 4 * c ^ 3 - 3 * c := by linarith
  have hm2 : 4 * c ^ 3 - 3 * c ≤ -0.53346738 := by linarith
  have hk1 : (0.14792248 : ℝ) ≤ 2 * c ^ 2 - 1 := by linarith
  have hk2 : 2 * c ^ 2 - 1 ≤ 0.14792340 := by linarith
  have hp1 : (-0.07891276 : ℝ) ≤ (4 * c ^ 3 - 3 * c) * (2 * c ^ 2 - 1) := by
    nlinarith [mul_nonneg (by linarith : (0:ℝ) ≤ 2 * c ^ 2 - 1)
        (by linarith : (0:ℝ) ≤ 4 * c ^ 3 - 3 * c - (-0.53347040)),
      mul_nonneg (by norm_num : (0:ℝ) ≤ (0.53347040 : ℝ))
        (by linarith : (0:ℝ) ≤ 0.14792340 - (2 * c ^ 2 - 1))]
  have hp2 : (4 * c ^ 3 - 3 * c) * (2 * c ^ 2 - 1) ≤ -0.07891181 := by
    nlinarith [mul_nonneg (by linarith : (0:ℝ) ≤ 2 * c ^ 2 - 1)
        (by linarith : (0:ℝ) ≤ -0.53346738 - (4 * c ^ 3 - 3 * c)),
      mul_nonneg (by norm_num : (0:ℝ) ≤ (0.53346738 : ℝ))
        (by linarith : (0:ℝ) ≤ (2 * c ^ 2 - 1) - 0.14792248)]
  constructor <;> nlinarith [hp1, hp2, hm1, hm2, hc1, hc2]

set_option maxHeartbeats 1000000 in
lemma mpd_lat_val_AC :
    (111045.01561 : ℝ) ≤ meter_per_deg_lat_val 40.540851 ∧
    meter_per_deg_lat_val 40.540851 ≤ 111045.01614 := by
  obtain ⟨hc1, hc2⟩ := cos_phi_AC
  unfold meter_per_deg_lat_val
  rw [cos_four_mul, cos_six_mul, Real.cos_three_mul, Real.cos_two_mul]
  set c : ℝ := Real.cos (to_radians 40.540851) with hcdef
  have hc0 : (0 : ℝ) ≤ c := by linarith
  have hs1 : (0.57751275 : ℝ) ≤ c ^ 2 := by nlinarith
  have hs2 : c ^ 2 ≤ 0.57751322 := by nlinarith
  have ht1 : (0.43887654 : ℝ) ≤ c ^ 3 := by
    nlinarith [mul_le_mul hs1 hc1 (by norm_num) (by positivity)]
  have ht2 : c ^ 3 ≤ 0.43887708 := by
    nlinarith [mul_le_mul hs2 hc2 hc0 (by norm_num)]
  have hk1 : (0.15502550 : ℝ) ≤ 2 * c ^ 2 - 1 := by linarith
  have hk2 : 2 * c ^ 2 - 1 ≤ 0.15502644 := by linarith
  have hm1 : (-0.52432254 : ℝ) ≤ 4 * c ^ 3 - 3 * c := by linarith
  have hm2 : 4 * c ^ 3 - 3 * c ≤ -0.52431948 := by linarith
  have hksq := sq_le_sq_of_nonneg' hk1 hk2 (by norm_num)
  have hq1 : (-0.95193419 : ℝ) ≤ 2 * (2 * c ^ 2 - 1) ^ 2 - 1 := by linarith [hksq.1]
  have hq2 : 2 * (2 * c ^ 2 - 1) ^ 2 - 1 ≤ -0.95193360 := by linarith [hksq.2]
  have hmsq := sq_le_sq_of_nonpos' hm1 hm2 (by norm_num)
  have hr1 : (-0.45017817 : ℝ) ≤ 2 * (4 * c ^ 3 - 3 * c) ^ 2 - 1 := by linarith [hmsq.1]
  have hr2 : 2 * (4 * c ^ 3 - 3 * c) ^ 2 - 1 ≤ -0.45017174 := by linarith [hmsq.2]
  constructor <;> linarith

lemma approx_eq (b : BBoxWGS) (h : -90 ≤ b.midpoint.1 ∧ b.midpoint.1 ≤ 90) :
    BBoxWGS.approx_dimensions_m b = .ok
      (|meter_per_deg_lon_val b.midpoint.1 * (b.lower_right.2 - b.upper_left.2)|,
       |meter_per_deg_lat_val b.midpoint.1 * (b.lower_right.1 - b.upper_left.1)|) := by
  simp only [BBoxWGS.approx_dimensions_m, mpd_lon_ok _ h, tg_bind_ok, mpd_lat_ok _ h,
    tg_pure]

/-- C9: on the test box with corners (40.7467136, -118.8088034) and
(40.7467136, -118.3692927), `approx_dimensions_m` returns a width within 1 m
of 37119 m and a height within 1 m of 0; on the box with corners
(40.7467136, -118.8088034) and (40.3349884, -118.8088034) it returns a height
within 1 m of 45720.5 m and a width within 1 m of 0. -/
theorem approx_dimensions_reference_boxes :
    (∃ p : Point2d,
        BBoxWGS.approx_dimensions_m
          { upper_left := ((40.7467136 : ℝ), (-118.8088034 : ℝ)),
            lower_right := ((40.7467136 : ℝ), (-118.3692927 : ℝ)) } = .ok p ∧
        |p.1 - 37119| ≤ 1 ∧ |p.2 - 0| ≤ 1) ∧
    (∃ p : Point2d,
        BBoxWGS.approx_dimensions_m
          { upper_left := ((40.7467136 : ℝ), (-118.8088034 : ℝ)),
            lower_right := ((40.3349884 : ℝ), (-118.8088034 : ℝ)) } = .ok p ∧
        |p.2 - 45720.5| ≤ 1 ∧ |p.1 - 0| ≤ 1) := by
  constructor
  · refine ⟨_, approx_eq _ (by norm_num [BBoxWGS.midpoint]), ?_, ?_⟩
    · show |(|meter_per_deg_lon_val (((40.7467136 : ℝ) + 40.7467136) / 2) *
        ((-118.3692927 : ℝ) - (-118.8088034 : ℝ))|) - 37119| ≤ 1
      rw [show (((40.7467136 : ℝ) + 40.7467136) / 2) = 40.7467136 from by norm_num,
        show ((-118.3692927 : ℝ) - (-118.8088034 : ℝ)) = 0.4395107 from by norm_num]
      obtain ⟨hv1, hv2⟩ := mpd_lon_val_AB
      rw [abs_of_nonneg (by nlinarith : (0 : ℝ) ≤
        meter_per_deg_lon_val 40.7467136 * 0.4395107), abs_le]
      constructor <;> nlinarith
    · show |(|meter_per_deg_lat_val (((40.7467136 : ℝ) + 40.7467136) / 2) *
        ((40.7467136 : ℝ) - (40.7467136 : ℝ))|) - 0| ≤ 1
      norm_num
  · refine ⟨_, approx_eq _ (by norm_num [BBoxWGS.midpoint]), ?_, ?_⟩
    · show |(|meter_per_deg_lat_val (((40.7467136 : ℝ) + 40.3349884) / 2) *
        ((40.3349884 : ℝ) - (40.7467136 : ℝ))|) - 45720.5| ≤ 1
      rw [show (((40.7467136 : ℝ) + 40.3349884) / 2) = 40.540851 from by norm_num,
        show ((40.3349884 : ℝ) - (40.7467136 : ℝ)) = -0.4117252 from by norm_num]
      obtain ⟨hv1, hv2⟩ := mpd_lat_val_AC
      have habs : |meter_per_deg_lat_val 40.540851 * (-0.4117252 : ℝ)| =
          meter_per_deg_lat_val 40.540851 * 0.4117252 := by
        rw [abs_mul, abs_of_nonneg (by linarith : (0 : ℝ) ≤ meter_per_deg_lat_val 40.540851),
          abs_of_neg (by norm_num : (-0.4117252 : ℝ) < 0)]
        ring
      rw [habs, abs_le]
      constructor <;> nlinarith
    · show |(|meter_per_deg_lon_val (((40.7467136 : ℝ) + 40.3349884) / 2) *
        ((-118.8088034 : ℝ) - (-118.8088034 : ℝ))|) - 0| ≤ 1
      norm_num

end TelemGen
